import Mathlib

/-!
Verification of the Movie-Recommendation-System repository.

The repository's presentation layer is `src/app.py` (a Streamlit page); it is
embedded below together with a model of the collaborative-filtering engine it
calls (`MovieRecommender` from the `movie_recommender` module, which the
repository does not ship in `src/`): the engine operations are therefore
modelled from the specification, as marked on each definition.

Machine reals of the source (numpy floats) are modelled as exact reals `ℝ`;
ratings are whole star counts (`'⭐' * movie['rating']` in app.py multiplies a
string by the rating), so rating values are `ℕ`.
-/

/-- A rating record: one row of `ratings_df` — (user id, movie id, rating
value, movie title). -/
structure Rating where
  user : Nat
  movie : Nat
  rating : Nat
  title : String
deriving DecidableEq

/-- The rating table (`recommender.ratings_df`), in load order. -/
abbrev RatingsTable := List Rating

/-! ## The presentation layer's own computations (src/app.py) -/

/-- `ratings_df[ratings_df['user_id'] == selected_user]` (app.py line 219-221):
the rows of the table whose user id is `u`, in table order. -/
def userRows (df : RatingsTable) (u : Nat) : List Rating :=
  df.filter (fun r => r.user == u)

/-- The relation pandas sorts user rows by: ascending rating value. -/
def ratingLE (a b : Rating) : Prop := a.rating ≤ b.rating

instance : DecidableRel ratingLE := fun a b => Nat.decLe a.rating b.rating

/-- `DataFrame.sort_values('rating', ascending=False)`: pandas `nargsort`
argsorts ascending with the default `quicksort` kind and then reverses the
indexer for `ascending=False`; on the row counts at hand numpy's introsort is
its stable insertion sort, so the model is a stable ascending sort followed by
a reversal. -/
def sort_values_rating_desc (l : List Rating) : List Rating :=
  (List.insertionSort ratingLE l).reverse

/-- `user_ratings` of app.py lines 219-221: the selected user's rows sorted by
rating with `ascending=False`. -/
def user_ratings (df : RatingsTable) (u : Nat) : List Rating :=
  sort_values_rating_desc (userRows df u)

/-- `len(recommender.ratings_df)` (app.py line 173). -/
def totalRatings (df : RatingsTable) : Nat := df.length

/-- `ratings_df['user_id'].nunique()` (app.py line 174). -/
def totalUsers (df : RatingsTable) : Nat := (df.map (·.user)).dedup.length

/-- `ratings_df['movie_id'].nunique()` (app.py line 175). -/
def totalMovies (df : RatingsTable) : Nat := (df.map (·.movie)).dedup.length

/-- `ratings_df['rating'].mean()` (app.py line 176): sum of the rating column
over its length. -/
def avgRating (df : RatingsTable) : ℚ :=
  ((df.map (·.rating)).sum : ℚ) / (df.length : ℚ)

/-- Modelled from the spec: "total ratings = number of rating records" — the
spec-side reading of the first statistic. -/
def specTotalRatings (df : RatingsTable) : Nat := df.length

/-- Modelled from the spec: "distinct users" — the cardinality of the set of
user identifiers of the rating table. -/
def specDistinctUsers (df : RatingsTable) : Nat := (df.map (·.user)).toFinset.card

/-- Modelled from the spec: "distinct items" — the cardinality of the set of
item identifiers of the rating table. -/
def specDistinctItems (df : RatingsTable) : Nat := (df.map (·.movie)).toFinset.card

/-- Modelled from the spec: "mean rating" — the arithmetic mean of all rating
values, as rationals. -/
def specMeanRating (df : RatingsTable) : ℚ :=
  (df.map (fun r => (r.rating : ℚ))).sum / (df.length : ℚ)

/-! ## The recommendation engine, modelled from the spec
The `movie_recommender` module is not part of `src/`; every definition below
is modelled from the specification (§3, §4, §6). -/

/-- Modelled from the spec: `all_users()` of the missing Rating Store — the
distinct user identifiers of the table in a deterministic (ascending) order;
also `recommender.users` read by app.py. -/
def all_users (df : RatingsTable) : List Nat :=
  List.insertionSort (· ≤ ·) (df.map (·.user)).dedup

/-- Modelled from the spec: `all_items()` of the missing Rating Store — the
distinct item identifiers of the table in ascending order. -/
def all_items (df : RatingsTable) : List Nat :=
  List.insertionSort (· ≤ ·) (df.map (·.movie)).dedup

/-- Modelled from the spec: the Interaction Matrix entry for `(u, i)` —
rating-or-unknown; on duplicate records the latest-loaded one wins (§3). -/
def ratingEntry (df : RatingsTable) (u i : Nat) : Option Nat :=
  (df.reverse.find? (fun r => r.user == u && r.movie == i)).map (·.rating)

/-- Modelled from the spec: `ratedItems(U)` — the distinct items the user has
rated, ascending. -/
def rated_items (df : RatingsTable) (u : Nat) : List Nat :=
  List.insertionSort (· ≤ ·) ((df.filter (fun r => r.user == u)).map (·.movie)).dedup

/-- Modelled from the spec: the numeric vector entry used by the Similarity
Engine — "unknown" entries contribute 0 to dot products and magnitudes (§4.3). -/
def entryVal (df : RatingsTable) (u i : Nat) : ℚ :=
  ((ratingEntry df u i).getD 0 : Nat)

/-- Modelled from the spec: dot product of the rows of users `u` and `v` of
the Interaction Matrix. -/
def rowDot (df : RatingsTable) (u v : Nat) : ℚ :=
  ((all_items df).map (fun i => entryVal df u i * entryVal df v i)).sum

/-- Modelled from the spec: dot product of the columns of items `i` and `j` of
the Interaction Matrix. -/
def colDot (df : RatingsTable) (i j : Nat) : ℚ :=
  ((all_users df).map (fun u => entryVal df u i * entryVal df u j)).sum

/-- Modelled from the spec: user-user cosine similarity, diagonal forced to 1
(§4.3); in Lean division by a zero magnitude already yields 0, realising the
spec's 0/0 = 0 convention. -/
noncomputable def userSim (df : RatingsTable) (u v : Nat) : ℝ :=
  if u = v then 1
  else (rowDot df u v : ℝ) / (Real.sqrt (rowDot df u u) * Real.sqrt (rowDot df v v))

/-- Modelled from the spec: item-item cosine similarity, diagonal forced to 1. -/
noncomputable def itemSim (df : RatingsTable) (i j : Nat) : ℝ :=
  if i = j then 1
  else (colDot df i j : ℝ) / (Real.sqrt (colDot df i i) * Real.sqrt (colDot df j j))

/-- Modelled from the spec: the candidate items of a request — `allItems −
ratedItems(U)` (§4.4). -/
def candidates (df : RatingsTable) (u : Nat) : List Nat :=
  (all_items df).filter (fun i => !(decide (i ∈ rated_items df u)))

/-- Modelled from the spec: the user-based neighbors — "all other users with
similarity(U, ·) > 0" (§4.4). -/
noncomputable def userNeighbors (df : RatingsTable) (u : Nat) : List Nat :=
  (all_users df).filter
    (fun v => !(decide (v = u)) && @decide _ (Classical.propDecidable (0 < userSim df u v)))

/-- Modelled from the spec: the neighbors supporting candidate item `i` — the
positive-similarity users who rated `i`. -/
noncomputable def supportUsers (df : RatingsTable) (u i : Nat) : List Nat :=
  (userNeighbors df u).filter (fun v => (ratingEntry df v i).isSome)

/-- Modelled from the spec: the user-based predicted score — weighted average
of supporters' ratings, weights `sim(U,V)`, normaliser the sum of their
absolute values. -/
noncomputable def userScore (df : RatingsTable) (u i : Nat) : ℝ :=
  ((supportUsers df u i).map (fun v => userSim df u v * ((ratingEntry df v i).getD 0 : Nat))).sum
    / ((supportUsers df u i).map (fun v => |userSim df u v|)).sum

/-- Modelled from the spec: the rated items supporting candidate item `i` in
the item-based method — items the user rated with `similarity(I, J) > 0`. -/
noncomputable def supportItems (df : RatingsTable) (u i : Nat) : List Nat :=
  (rated_items df u).filter
    (fun j => @decide _ (Classical.propDecidable (0 < itemSim df i j)))

/-- Modelled from the spec: the item-based predicted score — weighted average
over the supporting rated items. -/
noncomputable def itemScore (df : RatingsTable) (u i : Nat) : ℝ :=
  ((supportItems df u i).map (fun j => itemSim df i j * ((ratingEntry df u j).getD 0 : Nat))).sum
    / ((supportItems df u i).map (fun j => |itemSim df i j|)).sum

/-- Pair each surviving candidate with its score; candidates without support
are excluded, not scored 0 (§4.4). -/
def scoreList (cand : List Nat) (supported : Nat → Bool) (score : Nat → ℝ) :
    List (Nat × ℝ) :=
  (cand.filter supported).map (fun i => (i, score i))

/-- The ranking order of a recommendation list: descending predicted score,
ties broken by ascending item identifier. -/
def recLE (a b : Nat × ℝ) : Prop := b.2 < a.2 ∨ (a.2 = b.2 ∧ a.1 ≤ b.1)

/-- The strict ranking order: strictly greater score, or equal score and
strictly smaller item identifier. -/
def recLT (a b : Nat × ℝ) : Prop := b.2 < a.2 ∨ (a.2 = b.2 ∧ a.1 < b.1)

noncomputable instance : DecidableRel recLE := fun _ _ => Classical.propDecidable _

/-- Modelled from the spec: rank a scored candidate list — sort by descending
score with the ascending-identifier tie-break. -/
noncomputable def rankRecs (l : List (Nat × ℝ)) : List (Nat × ℝ) :=
  List.insertionSort recLE l

/-- The errors of the engine the claims mention (§7). -/
inductive RecError where
  | unknownUser
  | invalidRequest
deriving DecidableEq

/-- Modelled from the spec: `user_based_recommend(user, n)` of the missing
engine — guard the user against the Interaction Matrix, require a positive
count, then rank the supported unrated candidates and truncate (§4.4). -/
noncomputable def user_based_recommend (df : RatingsTable) (u k : Nat) :
    Except RecError (List (Nat × ℝ)) :=
  if u ∈ all_users df then
    if k = 0 then .error .invalidRequest
    else .ok ((rankRecs (scoreList (candidates df u)
      (fun i => !(supportUsers df u i).isEmpty) (userScore df u))).take k)
  else .error .unknownUser

/-- Modelled from the spec: `item_based_recommend(user, n)` of the missing
engine. -/
noncomputable def item_based_recommend (df : RatingsTable) (u k : Nat) :
    Except RecError (List (Nat × ℝ)) :=
  if u ∈ all_users df then
    if k = 0 then .error .invalidRequest
    else .ok ((rankRecs (scoreList (candidates df u)
      (fun i => !(supportItems df u i).isEmpty) (itemScore df u))).take k)
  else .error .unknownUser

/-- The two methods the sidebar radio button offers (app.py lines 155-160). -/
inductive Method where
  | user_based
  | item_based
deriving DecidableEq

/-- The request dispatch of app.py lines 193-196: one engine call per method. -/
noncomputable def recommend (df : RatingsTable) (m : Method) (u k : Nat) :
    Except RecError (List (Nat × ℝ)) :=
  match m with
  | .user_based => user_based_recommend df u k
  | .item_based => item_based_recommend df u k

/-- The recommendation pairs of a request result; a raised error shows none. -/
def resultPairs (r : Except RecError (List (Nat × ℝ))) : List (Nat × ℝ) :=
  match r with
  | .ok l => l
  | .error _ => []

/-- The recommended item identifiers of a request result. -/
def resultItems (r : Except RecError (List (Nat × ℝ))) : List Nat :=
  (resultPairs r).map Prod.fst

/-! ## Initialization and caching (app.py lines 70-78) -/

/-- The built engine `load_recommender` returns: in this embedding every
derived structure (matrix, similarities) is a function of the rating table, so
the engine is the loaded table. -/
structure Recommender where
  ratings_df : RatingsTable
deriving DecidableEq

/-- The body of `load_recommender` (app.py lines 71-78): construct the engine,
load the data and build the matrix and similarities — here, wrap the table. -/
def load_recommender (df : RatingsTable) : Recommender := ⟨df⟩

/-- One call through the `@st.cache_resource` guard: a cached resource is
returned as is; otherwise the builder runs once and its result is cached on
success and left uncached on failure. The third component counts builder
runs (0 or 1). -/
def cacheResourceCall {ε α : Type} (build : Unit → Except ε α) :
    Option α → Option α × Except ε α × Nat
  | some a => (some a, Except.ok a, 0)
  | none =>
    match build () with
    | .ok a => (some a, .ok a, 1)
    | .error e => (none, .error e, 1)

/-- A sequence of `n` calls through the guard: final cache state, the `n`
results in order, and the total number of builder runs. -/
def cacheRun {ε α : Type} (build : Unit → Except ε α) :
    Nat → Option α → Option α × List (Except ε α) × Nat
  | 0, st => (st, [], 0)
  | n + 1, st =>
    let step := cacheResourceCall build st
    let rest := cacheRun build n step.1
    (rest.1, step.2.1 :: rest.2.1, step.2.2 + rest.2.2)

/-! ## The presentation of a request's outcome (app.py lines 190-213) -/

/-- The message `str(e)` of app.py line 213 renders for an engine error. -/
def errText : RecError → String
  | .unknownUser => "User not found in dataset"
  | .invalidRequest => "Invalid request"

/-- What the recommendations column displays for one button press. -/
inductive DisplayOutcome where
  | warningNoRecs
  | successList (recs : List (Nat × ℝ))
  | errorText (msg : String)

/-- app.py lines 191-213: a result that raised is shown as a readable failure
message (line 213); an empty returned result is shown as an informational
warning (line 199); a non-empty one as a success list (lines 201-206). -/
def renderRecommendResult (r : Except RecError (List (Nat × ℝ))) : DisplayOutcome :=
  match r with
  | .error e => .errorText ("Error generating recommendations: " ++ errText e)
  | .ok recs => if recs.length = 0 then .warningNoRecs else .successList recs

/-! ## The interface's request arguments (app.py lines 142-169) -/

/-- The selectbox of app.py lines 147-152: whatever position the user picks,
the selected id is an element of `recommender.users`. -/
def selectUser (df : RatingsTable) (idx : Nat) : Nat :=
  (all_users df).getD (idx % (all_users df).length) 0

/-- The slider of app.py lines 163-169: its value is clamped to 1..15. -/
def sliderValue (n : Nat) : Nat := min 15 (max 1 n)

/-! ## Decidable helpers for the edge-case claims -/

/-- No other user shares a rated item with `u` — the "no overlapping
neighbors" condition. -/
def noOverlap (df : RatingsTable) (u : Nat) : Bool :=
  (all_users df).all
    (fun v => v == u || (rated_items df v).all (fun m => !(decide (m ∈ rated_items df u))))

/-- The rows are sorted by rating descending with ties in ascending item-id
order. -/
def descWithItemAsc : List Rating → Bool
  | [] => true
  | [_] => true
  | a :: b :: t =>
    (decide (b.rating < a.rating) ||
      (decide (a.rating = b.rating) && decide (a.movie < b.movie)))
    && descWithItemAsc (b :: t)

/-- The rows are sorted by rating descending with ties in descending item-id
order. -/
def descWithItemDesc : List Rating → Bool
  | [] => true
  | [_] => true
  | a :: b :: t =>
    (decide (b.rating < a.rating) ||
      (decide (a.rating = b.rating) && decide (b.movie < a.movie)))
    && descWithItemDesc (b :: t)

/-- A four-row table for user 1 whose equal-rating runs enter in mixed item-id
order: items 2, 5 at rating 4 and items 1, 0 at rating 3. -/
def exDf : RatingsTable :=
  [⟨1, 2, 4, "A"⟩, ⟨1, 5, 4, "B"⟩, ⟨1, 1, 3, "C"⟩, ⟨1, 0, 3, "D"⟩]

/-! ## Order facts about the sorting relations -/

instance : IsTotal Rating ratingLE :=
  ⟨fun a b => Nat.le_total a.rating b.rating⟩

instance : IsTrans Rating ratingLE :=
  ⟨fun _ _ _ h1 h2 => Nat.le_trans h1 h2⟩

instance : IsTotal (Nat × ℝ) recLE := by
  constructor
  intro a b
  rcases lt_trichotomy a.2 b.2 with h | h | h
  · exact Or.inr (Or.inl h)
  · rcases Nat.le_total a.1 b.1 with h1 | h1
    · exact Or.inl (Or.inr ⟨h, h1⟩)
    · exact Or.inr (Or.inr ⟨h.symm, h1⟩)
  · exact Or.inl (Or.inl h)

instance : IsTrans (Nat × ℝ) recLE := by
  constructor
  intro a b c hab hbc
  rcases hab with h1 | ⟨h1, h1n⟩
  · rcases hbc with h2 | ⟨h2, _⟩
    · exact Or.inl (h2.trans h1)
    · exact Or.inl (h2 ▸ h1)
  · rcases hbc with h2 | ⟨h2, h2n⟩
    · exact Or.inl (h1 ▸ h2)
    · exact Or.inr ⟨h1.trans h2, h1n.trans h2n⟩

/-! ## Claim theorems -/

/-- C2 counterexample: in `exDf` user 1's displayed history puts item 5 before
item 2 inside the rating-4 tie but item 0 before item 1 inside the rating-3
tie, so the equal-rating rows follow neither an ascending nor a descending
item-identifier tie-break. -/
theorem user_ratings_tie_not_item_keyed :
    user_ratings exDf 1 =
      [⟨1, 5, 4, "B"⟩, ⟨1, 2, 4, "A"⟩, ⟨1, 0, 3, "D"⟩, ⟨1, 1, 3, "C"⟩] ∧
    descWithItemAsc (user_ratings exDf 1) = false ∧
    descWithItemDesc (user_ratings exDf 1) = false := by
  decide

/-- C2 (amended): the rating history shown for a user is a permutation of that
user's rows sorted by rating value descending; the relative order of rows with
equal rating is the sort's own (pandas argsort-then-reverse), not an
item-identifier tie-break. -/
theorem user_ratings_sorted_desc (df : RatingsTable) (u : Nat) :
    List.Sorted (fun a b => ratingLE b a) (user_ratings df u) ∧
    (user_ratings df u).Perm (userRows df u) := by
  constructor
  · have h := List.sorted_insertionSort ratingLE (userRows df u)
    exact (List.pairwise_reverse).2 h
  · exact (List.reverse_perm _).trans (List.perm_insertionSort _ _)

/-- C3: the four sidebar statistics of app.py lines 173-176 equal the pure
derived values over the rating table — record count, distinct-user count,
distinct-item count, arithmetic mean of the rating values — and are functions
of the table alone. -/
theorem sidebar_stats_are_rating_store_stats (df : RatingsTable) :
    totalRatings df = specTotalRatings df ∧
    totalUsers df = specDistinctUsers df ∧
    totalMovies df = specDistinctItems df ∧
    avgRating df = specMeanRating df := by
  exact ⟨rfl, (List.card_toFinset _).symm, (List.card_toFinset _).symm, rfl⟩

/-- C4: the presentation path of app.py lines 190-213 shows an empty returned
result as an informational warning, shows a raised engine error as a readable
failure message, never shows a returned result as a failure, and never shows a
raised error as the empty-result warning: empty and error are distinct
outcomes. -/
theorem empty_result_is_not_an_error (e : RecError) (l : List (Nat × ℝ))
    (msg : String) :
    renderRecommendResult (Except.ok []) = DisplayOutcome.warningNoRecs ∧
    renderRecommendResult (Except.error e) =
      DisplayOutcome.errorText ("Error generating recommendations: " ++ errText e) ∧
    renderRecommendResult (Except.ok l) ≠ DisplayOutcome.errorText msg ∧
    renderRecommendResult (Except.error e) ≠ DisplayOutcome.warningNoRecs ∧
    DisplayOutcome.warningNoRecs ≠ DisplayOutcome.errorText msg := by
  refine ⟨rfl, rfl, ?_, ?_, ?_⟩
  · rw [renderRecommendResult]
    split <;> simp
  · rw [renderRecommendResult]
    simp
  · simp

/-- C5: under the `@st.cache_resource` guard of app.py line 70, once a first
call has successfully built the engine, any later sequence of calls returns
that same engine every time and runs the builder zero further times; and the
first successful call is the one that populates the cache after exactly one
builder run. -/
theorem load_recommender_initializes_once (df : RatingsTable)
    (build : Unit → Except String Recommender) (n : Nat) :
    cacheRun build n (some (load_recommender df)) =
      (some (load_recommender df),
        List.replicate n (Except.ok (load_recommender df)), 0) ∧
    cacheResourceCall (fun _ => (Except.ok (load_recommender df) : Except String Recommender)) none =
      (some (load_recommender df), Except.ok (load_recommender df), 1) := by
  constructor
  · induction n with
    | zero => rfl
    | succ n ih =>
      rw [cacheRun]
      simp only [cacheResourceCall, ih, List.replicate]
  · rfl

/-! ## Structural lemmas about the candidate pipeline -/

lemma nodup_all_items (df : RatingsTable) : (all_items df).Nodup :=
  (List.nodup_dedup _).perm (List.perm_insertionSort _ _).symm

lemma nodup_candidates (df : RatingsTable) (u : Nat) : (candidates df u).Nodup :=
  (nodup_all_items df).filter _

lemma mem_candidates (df : RatingsTable) (u i : Nat) :
    i ∈ candidates df u ↔ i ∈ all_items df ∧ i ∉ rated_items df u := by
  simp [candidates, List.mem_filter]

lemma take_rank_score_subset (cand : List Nat) (supported : Nat → Bool)
    (score : Nat → ℝ) (k : Nat) :
    ((rankRecs (scoreList cand supported score)).take k).map Prod.fst ⊆ cand := by
  intro a ha
  rcases List.mem_map.1 ha with ⟨p, hp, rfl⟩
  have hp1 : p ∈ rankRecs (scoreList cand supported score) := List.take_subset _ _ hp
  have hp2 : p ∈ scoreList cand supported score :=
    (List.perm_insertionSort recLE _).subset hp1
  rcases List.mem_map.1 hp2 with ⟨i, hi, rfl⟩
  exact List.mem_of_mem_filter hi

lemma pairwise_recLT_rank (cand : List Nat) (supported : Nat → Bool)
    (score : Nat → ℝ) (h : cand.Nodup) :
    List.Pairwise recLT (rankRecs (scoreList cand supported score)) := by
  have hsorted : List.Sorted recLE (rankRecs (scoreList cand supported score)) :=
    List.sorted_insertionSort recLE _
  have hmapeq : (scoreList cand supported score).map Prod.fst = cand.filter supported := by
    rw [scoreList, List.map_map]
    exact (List.map_congr_left fun a _ => rfl).trans (List.map_id _)
  have hfst : ((scoreList cand supported score).map Prod.fst).Nodup := by
    rw [hmapeq]; exact h.filter _
  have hfst2 : ((rankRecs (scoreList cand supported score)).map Prod.fst).Nodup :=
    hfst.perm ((List.perm_insertionSort recLE _).symm.map _)
  have hne : List.Pairwise (fun a b : Nat × ℝ => a.1 ≠ b.1)
      (rankRecs (scoreList cand supported score)) := List.pairwise_map.1 hfst2
  refine (hsorted.and hne).imp ?_
  rintro a b ⟨hab, hne2⟩
  rcases hab with h1 | ⟨h1, h2⟩
  · exact Or.inl h1
  · exact Or.inr ⟨h1, lt_of_le_of_ne h2 hne2⟩

/-- C1: a recommendation result never contains an item the target user has
already rated, and the candidate pool it draws from is exactly the dataset's
items minus the user's rated items — for either method and any requested
count. -/
theorem recommend_excludes_rated (df : RatingsTable) (m : Method) (u k i : Nat) :
    (i ∈ candidates df u ↔ i ∈ all_items df ∧ i ∉ rated_items df u) ∧
    resultItems (recommend df m u k) ⊆ candidates df u ∧
    (resultItems (recommend df m u k)).Disjoint (rated_items df u) := by
  have hsub : resultItems (recommend df m u k) ⊆ candidates df u := by
    cases m with
    | user_based =>
      rw [recommend, user_based_recommend]
      split_ifs with h1 h2
      · simp [resultItems, resultPairs]
      · simpa [resultItems, resultPairs] using
          take_rank_score_subset (candidates df u) _ (userScore df u) k
      · simp [resultItems, resultPairs]
    | item_based =>
      rw [recommend, item_based_recommend]
      split_ifs with h1 h2
      · simp [resultItems, resultPairs]
      · simpa [resultItems, resultPairs] using
          take_rank_score_subset (candidates df u) _ (itemScore df u) k
      · simp [resultItems, resultPairs]
  refine ⟨mem_candidates df u i, hsub, ?_⟩
  intro a ha hr
  exact ((mem_candidates df u a).1 (hsub ha)).2 hr

/-- C6: for every user, method and count the recommendation list is sorted
strictly: each pair of entries in order has either a strictly greater score,
or an equal score and a strictly smaller item identifier; and re-running the
identical request yields the identical result. -/
theorem recommend_sorted_deterministic (df : RatingsTable) (m : Method) (u k : Nat) :
    List.Pairwise recLT (resultPairs (recommend df m u k)) ∧
    recommend df m u k = recommend df m u k := by
  refine ⟨?_, rfl⟩
  cases m with
  | user_based =>
    rw [recommend, user_based_recommend]
    split_ifs with h1 h2
    · simp [resultPairs]
    · simp only [resultPairs]
      exact List.Pairwise.sublist (List.take_sublist _ _)
        (pairwise_recLT_rank _ _ _ (nodup_candidates df u))
    · simp [resultPairs]
  | item_based =>
    rw [recommend, item_based_recommend]
    split_ifs with h1 h2
    · simp [resultPairs]
    · simp only [resultPairs]
      exact List.Pairwise.sublist (List.take_sublist _ _)
        (pairwise_recLT_rank _ _ _ (nodup_candidates df u))
    · simp [resultPairs]

/-- C7: a request for a user identifier absent from the Interaction Matrix
fails with the unknown-user error, for either method and any count — it is
never the silently empty success. -/
theorem unknown_user_raises (df : RatingsTable) (m : Method) (u k : Nat)
    (h : u ∉ all_users df) :
    recommend df m u k = Except.error RecError.unknownUser ∧
    recommend df m u k ≠ Except.ok [] := by
  have he : recommend df m u k = Except.error RecError.unknownUser := by
    cases m <;>
      simp [recommend, user_based_recommend, item_based_recommend, h]
  exact ⟨he, by simp [he]⟩

/-- C7 witness: user 99 is not in `exDf`; requesting recommendations for it
raises the unknown-user error. -/
theorem unknown_user_raises_witness :
    recommend exDf Method.user_based 99 5 = Except.error RecError.unknownUser ∧
    recommend exDf Method.user_based 99 5 ≠ Except.ok [] :=
  unknown_user_raises exDf Method.user_based 99 5 (by decide)

/-- C10: whatever position the selectbox picks and whatever raw slider value
arrives, the interface's request satisfies the engine's preconditions — the
user is one of the engine's exposed users and the count lies in 1..15 — and
the request succeeds, so the unknown-user and non-positive-count error
branches are unreachable from this interface. -/
theorem interface_requests_satisfy_preconditions (df : RatingsTable) (m : Method)
    (idx n : Nat) (h : all_users df ≠ []) :
    selectUser df idx ∈ all_users df ∧
    1 ≤ sliderValue n ∧ sliderValue n ≤ 15 ∧
    (recommend df m (selectUser df idx) (sliderValue n)).isOk = true := by
  have hlen : 0 < (all_users df).length := List.length_pos.2 h
  have hlt : idx % (all_users df).length < (all_users df).length := Nat.mod_lt _ hlen
  have hmem : selectUser df idx ∈ all_users df := by
    rw [selectUser, List.getD_eq_getElem _ _ hlt]
    exact List.getElem_mem hlt
  have h1 : 1 ≤ sliderValue n := le_min (by norm_num) (le_max_left 1 n)
  have h15 : sliderValue n ≤ 15 := min_le_left _ _
  have hk : ¬(sliderValue n = 0) := by omega
  refine ⟨hmem, h1, h15, ?_⟩
  cases m <;>
    simp [recommend, user_based_recommend, item_based_recommend, hmem, hk,
      Except.isOk, Except.toBool]

/-- C10 witness: on the concrete table `exDf` (whose user list is nonempty)
the request built from selectbox position 3 and raw slider value 0 is inside
the engine's preconditions and succeeds. -/
theorem interface_requests_witness :
    selectUser exDf 3 ∈ all_users exDf ∧
    1 ≤ sliderValue 0 ∧ sliderValue 0 ≤ 15 ∧
    (recommend exDf Method.item_based (selectUser exDf 3) (sliderValue 0)).isOk = true :=
  interface_requests_satisfy_preconditions exDf Method.item_based 3 0 (by decide)

/-! ## Symmetry of the similarity matrices -/

lemma rowDot_comm (df : RatingsTable) (u v : Nat) : rowDot df u v = rowDot df v u := by
  rw [rowDot, rowDot]
  exact congrArg List.sum (List.map_congr_left fun i _ => mul_comm _ _)

lemma colDot_comm (df : RatingsTable) (i j : Nat) : colDot df i j = colDot df j i := by
  rw [colDot, colDot]
  exact congrArg List.sum (List.map_congr_left fun u _ => mul_comm _ _)

/-- C8: both similarity matrices are symmetric, their diagonals are forced to
1, and the diagonal is never consulted as a neighbor: a user is not among its
own user-based neighbors, and a candidate item (one the user has not rated)
is not among its own item-based support. -/
theorem similarity_symmetric_diag_excluded (df : RatingsTable) (u v i j : Nat)
    (h : i ∉ rated_items df u) :
    userSim df u v = userSim df v u ∧
    itemSim df i j = itemSim df j i ∧
    userSim df u u = 1 ∧
    itemSim df i i = 1 ∧
    u ∉ userNeighbors df u ∧
    i ∉ supportItems df u i := by
  refine ⟨?_, ?_, by simp [userSim], by simp [itemSim], ?_, ?_⟩
  · by_cases huv : u = v
    · subst huv; rfl
    · rw [userSim, userSim, if_neg huv, if_neg (Ne.symm huv), rowDot_comm df u v,
        mul_comm (Real.sqrt (rowDot df u u)) (Real.sqrt (rowDot df v v))]
  · by_cases hij : i = j
    · subst hij; rfl
    · rw [itemSim, itemSim, if_neg hij, if_neg (Ne.symm hij), colDot_comm df i j,
        mul_comm (Real.sqrt (colDot df i i)) (Real.sqrt (colDot df j j))]
  · simp [userNeighbors, List.mem_filter]
  · intro hmem
    exact h (List.mem_of_mem_filter hmem)

/-- C8 witness: on `exDf`, user similarity is symmetric at (1,2), item
similarity at (7,3), both diagonals are 1, user 1 is not its own neighbor and
the unrated item 7 is not in its own support. -/
theorem similarity_symmetric_witness :
    userSim exDf 1 2 = userSim exDf 2 1 ∧
    itemSim exDf 7 3 = itemSim exDf 3 7 ∧
    userSim exDf 1 1 = 1 ∧
    itemSim exDf 7 7 = 1 ∧
    1 ∉ userNeighbors exDf 1 ∧
    7 ∉ supportItems exDf 1 7 :=
  similarity_symmetric_diag_excluded exDf 1 2 7 3 (by decide)

/-! ## Zero-rating edge cases -/

lemma mem_rated_items (df : RatingsTable) (u i : Nat) :
    i ∈ rated_items df u ↔ ∃ r ∈ df, r.user = u ∧ r.movie = i := by
  rw [rated_items, (List.perm_insertionSort _ _).mem_iff]
  simp [List.mem_dedup, List.mem_filter, List.mem_map, and_assoc]

lemma mem_all_users_iff (df : RatingsTable) (u : Nat) :
    u ∈ all_users df ↔ ∃ r ∈ df, r.user = u := by
  rw [all_users, (List.perm_insertionSort _ _).mem_iff]
  simp [List.mem_dedup, List.mem_map]

lemma entryVal_ne_zero_mem (df : RatingsTable) (u i : Nat)
    (h : entryVal df u i ≠ 0) : i ∈ rated_items df u := by
  rw [entryVal] at h
  cases hre : ratingEntry df u i with
  | none => rw [hre] at h; simp at h
  | some n =>
    rw [ratingEntry] at hre
    rcases Option.map_eq_some'.1 hre with ⟨r, hfind, _⟩
    have hp := List.find?_some hfind
    have hmem := List.mem_reverse.1 (List.mem_of_find?_eq_some hfind)
    simp only [Bool.and_eq_true, beq_iff_eq] at hp
    exact (mem_rated_items df u i).2 ⟨r, hmem, hp.1, hp.2⟩

lemma rated_items_nil_entryVal (df : RatingsTable) (u : Nat)
    (h : rated_items df u = []) (i : Nat) : entryVal df u i = 0 := by
  by_contra hne
  have hmem := entryVal_ne_zero_mem df u i hne
  rw [h] at hmem
  exact absurd hmem (List.not_mem_nil _)

lemma ratingEntry_none_of_no_movie (df : RatingsTable) (i : Nat)
    (h : ∀ r ∈ df, r.movie ≠ i) (u : Nat) : ratingEntry df u i = none := by
  rw [ratingEntry, List.find?_eq_none.2 ?_]
  · rfl
  · intro r hr
    have := h r (List.mem_reverse.1 hr)
    simp [this]

/-- C9: an entity with zero ratings has similarity 0 to every other entity —
a user whose rated-item list is empty, and an item no record mentions — and a
user with exactly one rating and no overlapping neighbor gets an empty
user-based recommendation list back, not a division-by-zero failure. -/
theorem zero_rating_edge_cases (df : RatingsTable) (u v i j k : Nat) :
    (rated_items df u = [] → v ≠ u → userSim df u v = 0) ∧
    (df.all (fun r => !(decide (r.movie = i))) = true → j ≠ i → itemSim df i j = 0) ∧
    ((rated_items df u).length = 1 → noOverlap df u = true →
      user_based_recommend df u (k + 1) = Except.ok []) := by
  refine ⟨?_, ?_, ?_⟩
  · intro hz hvu
    have hrow : rowDot df u v = 0 := by
      refine List.sum_eq_zero ?_
      intro x hx
      rcases List.mem_map.1 hx with ⟨i0, _, rfl⟩
      rw [rated_items_nil_entryVal df u hz i0, zero_mul]
    rw [userSim, if_neg (Ne.symm hvu), hrow]
    simp
  · intro hall hji
    have hnone : ∀ w, entryVal df w i = 0 := by
      intro w
      rw [entryVal, ratingEntry_none_of_no_movie df i ?_ w]
      · rfl
      · intro r hr
        have := List.all_eq_true.1 hall r hr
        simpa using this
    have hcol : colDot df i j = 0 := by
      refine List.sum_eq_zero ?_
      intro x hx
      rcases List.mem_map.1 hx with ⟨u0, _, rfl⟩
      rw [hnone u0, zero_mul]
    rw [itemSim, if_neg (Ne.symm hji), hcol]
    simp
  · intro hlen hno
    have hne : rated_items df u ≠ [] := by
      intro hnil
      rw [hnil] at hlen
      simp at hlen
    have hmem : u ∈ all_users df := by
      rcases List.exists_mem_of_ne_nil _ hne with ⟨i0, hi0⟩
      rcases (mem_rated_items df u i0).1 hi0 with ⟨r, hr, hru, _⟩
      exact (mem_all_users_iff df u).2 ⟨r, hr, hru⟩
    have hno' : ∀ w ∈ all_users df, w ≠ u →
        ∀ x ∈ rated_items df w, x ∉ rated_items df u := by
      intro w hw hwu x hx
      have h2 := List.all_eq_true.1 hno w hw
      simp only [noOverlap] at h2
      simp [hwu] at h2
      simpa using h2 x hx
    have hnb : userNeighbors df u = [] := by
      rw [userNeighbors]
      refine List.filter_eq_nil_iff.2 ?_
      intro w hw
      by_cases hwu : w = u
      · simp [hwu]
      · have hrow : rowDot df u w = 0 := by
          refine List.sum_eq_zero ?_
          intro x hx
          rcases List.mem_map.1 hx with ⟨i0, _, rfl⟩
          by_cases hzu : entryVal df u i0 = 0
          · rw [hzu, zero_mul]
          · by_cases hzw : entryVal df w i0 = 0
            · rw [hzw, mul_zero]
            · exact absurd (entryVal_ne_zero_mem df u i0 hzu)
                (hno' w hw hwu i0 (entryVal_ne_zero_mem df w i0 hzw))
        have hsim : userSim df u w = 0 := by
          rw [userSim, if_neg (fun hh => hwu hh.symm), hrow]
          simp
        have hdf : (@decide (0 < userSim df u w) (Classical.propDecidable _)) = false :=
          decide_eq_false (by rw [hsim]; exact lt_irrefl 0)
        simp [hdf]
    have hsup : ∀ i0, supportUsers df u i0 = [] := by
      intro i0
      rw [supportUsers, hnb]
      rfl
    have hfilter : (candidates df u).filter
        (fun i0 => !(supportUsers df u i0).isEmpty) = [] := by
      refine List.filter_eq_nil_iff.2 ?_
      intro a _
      simp [hsup a]
    rw [user_based_recommend, if_pos hmem, if_neg (Nat.succ_ne_zero k), scoreList, hfilter]
    rfl
